import Mathlib

/-!
Verification of the docker-forensics-v2 ingestion pipeline against its design
specification.  The Python sources under src/ are shallowly embedded: JSON
documents become an inductive type, Python dicts become association lists with
Python's insertion-order update/delete semantics, fallible operations return
Option/Except, and the side-effecting boundary (file write + re-parse, the HTTP
wire, the clock, the random-secret generator, SHA-256) is represented by
explicit parameters.  Every definition is translated from the corresponding
source function, named like it where possible.
-/

namespace DockerForensics

/-- JSON values as produced by Python's json module when loading a document:
objects are ordered association lists with string keys (Python dicts preserve
insertion order; the repository's documents are Dict[str, Any] throughout).
Numbers are modelled as integers, which covers every numeric field the
pipeline itself creates. -/
inductive Json where
  | null
  | bool (b : Bool)
  | num (n : Int)
  | str (s : String)
  | arr (elems : List Json)
  | obj (fields : List (String × Json))

/-- Python dict lookup, d.get(k): first (and in practice only) binding wins. -/
def pyGet {κ α : Type} [DecidableEq κ] : List (κ × α) → κ → Option α
  | [], _ => none
  | (k', v) :: rest, k => if k' = k then some v else pyGet rest k

/-- Python dict assignment d[k] = v: replaces the value in place if the key is
present, otherwise appends the new binding (insertion order). -/
def pyDictSet {κ α : Type} [DecidableEq κ] : List (κ × α) → κ → α → List (κ × α)
  | [], k, v => [(k, v)]
  | (k', v') :: rest, k, v =>
    if k' = k then (k', v) :: rest else (k', v') :: pyDictSet rest k v

/-- Python dict deletion del d[k]: removes the binding for k (the caller in
load_from_local only deletes keys it has just looked up, so the key is
present whenever this runs). -/
def pyDictDel {κ α : Type} [DecidableEq κ] : List (κ × α) → κ → List (κ × α)
  | [], _ => []
  | (k', v') :: rest, k => if k' = k then rest else (k', v') :: pyDictDel rest k

/-- Python truthiness of a JSON value, as used by conditions such as
if stored_checksum: in load_from_local. -/
def pyTruthy : Json → Bool
  | .null => false
  | .bool b => b
  | .num n => n != 0
  | .str s => s != ""
  | .arr elems => !elems.isEmpty
  | .obj fields => !fields.isEmpty

/-- Insert one key/value pair into a key-sorted field list (Python sorts
object keys by string comparison when sort_keys=True). -/
def insertKey (kv : String × Json) : List (String × Json) → List (String × Json)
  | [] => [kv]
  | kv' :: rest =>
    if kv.1 ≤ kv'.1 then kv :: kv' :: rest else kv' :: insertKey kv rest

/-- Sort an object's fields by key, as json.dumps(..., sort_keys=True) does. -/
def sortKeys (fields : List (String × Json)) : List (String × Json) :=
  fields.foldr insertKey []

mutual

/-- Recursively sort every object's keys.  json.dumps(..., sort_keys=True) is
then the plain rendering of the canonicalised value. -/
def canon : Json → Json
  | .null => .null
  | .bool b => .bool b
  | .num n => .num n
  | .str s => .str s
  | .arr elems => .arr (canonList elems)
  | .obj fields => .obj (sortKeys (canonFields fields))

def canonList : List Json → List Json
  | [] => []
  | x :: xs => canon x :: canonList xs

def canonFields : List (String × Json) → List (String × Json)
  | [] => []
  | (k, v) :: rest => (k, canon v) :: canonFields rest

end

/-- Escape one character inside a JSON string literal (the escapes the
pipeline's own field values can contain; json.dumps additionally escapes
other control and non-ASCII characters, which never changes equality of
encodings of equal documents). -/
def escChar (c : Char) : String :=
  if c = '"' then "\\\""
  else if c = '\\' then "\\\\"
  else if c = '\n' then "\\n"
  else if c = '\t' then "\\t"
  else if c = '\r' then "\\r"
  else String.singleton c

/-- Escape a string for inclusion in a JSON encoding. -/
def escString (s : String) : String :=
  s.data.foldl (fun acc c => acc ++ escChar c) ""

mutual

/-- Render a JSON value with Python's default separators (item separator
a comma plus space, key separator a colon plus space). Applied after canon
this is json.dumps(value, sort_keys=True). -/
def dumpsRaw : Json → String
  | .null => "null"
  | .bool true => "true"
  | .bool false => "false"
  | .num n => toString n
  | .str s => "\"" ++ escString s ++ "\""
  | .arr elems => "[" ++ dumpsList elems ++ "]"
  | .obj fields => "\x7b" ++ dumpsFields fields ++ "\x7d"

def dumpsList : List Json → String
  | [] => ""
  | [x] => dumpsRaw x
  | x :: y :: rest => dumpsRaw x ++ ", " ++ dumpsList (y :: rest)

def dumpsFields : List (String × Json) → String
  | [] => ""
  | [(k, v)] => "\"" ++ escString k ++ "\": " ++ dumpsRaw v
  | (k, v) :: kv :: rest =>
    "\"" ++ escString k ++ "\": " ++ dumpsRaw v ++ ", " ++ dumpsFields (kv :: rest)

end

/-- json.dumps(value, sort_keys=True): the canonical key-sorted encoding the
serializer hashes. -/
def dumps (j : Json) : String := dumpsRaw (canon j)

/-! ## ArtifactSerializer (src/utils/artifact_serializer.py)

The serializer is embedded at the level of JSON documents.  save_to_local
writes the document with json.dump and load_from_local re-parses it with
json.load, which is the identity on documents whose dict keys are strings (the
interface the pipeline declares: Dict[str, Any] everywhere); the file layer is
therefore represented by handing load_from_local the very document that was
saved.  SHA-256 is an opaque function of the hashed string, passed explicitly
as sha256hex. -/

/-- Ambient values serialize_artifacts reads when building metadata: the
collection timestamp, os.uname().nodename and the USER environment variable. -/
structure SerializeEnv where
  timestamp : String
  host : String
  user : String

/-- Python iteration for error in x used by serialize_artifacts over
collector_data['errors']: lists yield their elements, strings their
characters, dicts their keys; other values raise TypeError (none). -/
def pyIter : Json → Option (List Json)
  | .arr elems => some elems
  | .str s => some (s.data.map (fun c => Json.str (String.singleton c)))
  | .obj fields => some (fields.map (fun kv => Json.str kv.1))
  | _ => none

/-- The error-aggregation loop of serialize_artifacts: for every collector
whose value is a dict containing an errors key, append one record per
reported error, tagged with the collector name, in document order. -/
def collectErrors : List (String × Json) → Option (List Json)
  | [] => some []
  | (name, v) :: rest => do
    let tail ← collectErrors rest
    match v with
    | .obj fields =>
      match pyGet fields "errors" with
      | some errsVal => do
        let items ← pyIter errsVal
        pure (items.map (fun e =>
          Json.obj [("collector", .str name), ("error", e)]) ++ tail)
      | none => pure tail
    | _ => pure tail

/-- The metadata dict serialize_artifacts builds before hashing (checksum key
deliberately absent at this point). -/
def serializeMetadata (env : SerializeEnv) (container_id : String)
    (artifacts : List (String × Json)) (errs : List Json) : List (String × Json) :=
  [("version", .str "2.0"),
   ("container_id", .str container_id),
   ("collection_timestamp", .str env.timestamp),
   ("collection_host", .str env.host),
   ("collection_user", .str env.user),
   ("artifact_count", .num artifacts.length),
   ("errors", .arr errs)]

/-- ArtifactSerializer.serialize_artifacts: wraps the artifact document with
metadata, hashes the key-sorted encoding of the envelope while the checksum
field is still absent, then stores the checksum into the metadata dict.
Returns none when a collector's errors value is not iterable (TypeError in
the aggregation loop). -/
def serialize_artifacts (sha256hex : String → String) (env : SerializeEnv)
    (container_id : String) (artifacts : List (String × Json)) : Option Json := do
  let errs ← collectErrors artifacts
  let metadata := serializeMetadata env container_id artifacts errs
  let serialized : Json := .obj [("metadata", .obj metadata), ("artifacts", .obj artifacts)]
  let checksum := sha256hex (dumps serialized)
  pure (.obj [("metadata", .obj (pyDictSet metadata "checksum" (.str checksum))),
              ("artifacts", .obj artifacts)])

/-- Result of load_from_local: the parsed document together with whether the
checksum-verification warning was logged, or the re-raised exception. -/
inductive LoadOutcome where
  | ok (data : Json) (warned : Bool)
  | error

/-- ArtifactSerializer.load_from_local on the parsed document: extract the
stored checksum; when it is truthy, recompute SHA-256 over the key-sorted
encoding of a deep copy with the checksum field deleted and log a warning on
mismatch; in every non-raising case return the document unchanged. -/
def load_from_local (sha256hex : String → String) (data : Json) : LoadOutcome :=
  match data with
  | .obj fields =>
    match pyGet fields "metadata" with
    | some (.obj m) =>
      match pyGet m "checksum" with
      | some stored =>
        if pyTruthy stored then
          let stripped : Json :=
            .obj (pyDictSet fields "metadata" (.obj (pyDictDel m "checksum")))
          let calculated := sha256hex (dumps stripped)
          let warned := match stored with
            | .str s => s != calculated
            | _ => true
          .ok data warned
        else
          .ok data false
      | none => .ok data false
    | some _ => .error
    | none => .ok data false
  | _ => .error

/-- The checksum currently stored in a saved envelope's metadata. -/
def envelopeStoredChecksum (data : Json) : Option String :=
  match data with
  | .obj fields =>
    match pyGet fields "metadata" with
    | some (.obj m) =>
      match pyGet m "checksum" with
      | some (.str s) => some s
      | _ => none
    | _ => none
  | _ => none

/-- Recompute the checksum the way load_from_local does: SHA-256 over the
canonical key-sorted encoding of the envelope with the checksum field
deleted from its metadata. -/
def envelopeRecomputedChecksum (sha256hex : String → String) (data : Json) : Option String :=
  match data with
  | .obj fields =>
    match pyGet fields "metadata" with
    | some (.obj m) =>
      some (sha256hex (dumps (.obj (pyDictSet fields "metadata" (.obj (pyDictDel m "checksum"))))))
    | _ => none
  | _ => none

/-! ## Authentication (src/api/auth.py)

Environment lookups, the clock and the secrets module are explicit
parameters.  JWTs signed with HMAC-SHA256 are idealised: a token records its
payload and the secret that signed it, and signature verification succeeds
exactly when the verifying secret is the signing secret (collisions between
HMACs under different keys are ignored, as the spec's security model does). -/

/-- Ambient state of the auth module: the two environment variables (none for
unset) and the stream of values secrets.token_urlsafe(32) will return, one
per call, consumed through a call counter. -/
structure AuthEnv where
  apiKeyEnv : Option String
  jwtSecretEnv : Option String
  randomSecret : Nat → String

/-- get_api_key: os.environ.get(FORENSICS_API_KEY). -/
def get_api_key (env : AuthEnv) : Option String := env.apiKeyEnv

/-- get_jwt_secret: the environment secret when set and non-empty, else a
fresh random secret (advancing the generation counter). -/
def get_jwt_secret (env : AuthEnv) (ctr : Nat) : String × Nat :=
  match env.jwtSecretEnv with
  | some s => if s = "" then (env.randomSecret ctr, ctr + 1) else (s, ctr)
  | none => (env.randomSecret ctr, ctr + 1)

/-- verify_api_key: permit everything when no (truthy) expected key is
configured, otherwise constant-time equality with the expected key. -/
def verify_api_key (env : AuthEnv) (provided_key : String) : Bool :=
  match get_api_key env with
  | none => true
  | some expected_key =>
    if expected_key = "" then true
    else provided_key == expected_key

/-- JWT expiration window: 24 hours, in seconds. -/
def JWT_EXPIRATION_SECONDS : Int := 86400

/-- An idealised HS256 token: the encoded payload plus the signing secret
(standing for the HMAC signature, which determines and is determined by the
secret/payload pair in the idealised model). -/
structure JwtToken where
  payload : List (String × Json)
  signedWith : String

/-- generate_token: build the payload (user_id, exp = now + 24h, iat, iss),
merge in the caller's additional claims with dict.update semantics, and sign
with get_jwt_secret's result.  now is the integer timestamp of
datetime.utcnow(); the counter is threaded for the secret generator. -/
def generate_token (env : AuthEnv) (ctr : Nat) (now : Int) (user_id : String)
    (additional_claims : List (String × Json)) : JwtToken × Nat :=
  let payload : List (String × Json) :=
    [("user_id", .str user_id),
     ("exp", .num (now + JWT_EXPIRATION_SECONDS)),
     ("iat", .num now),
     ("iss", .str "docker-forensics-api")]
  let payload := additional_claims.foldl (fun p kv => pyDictSet p kv.1 kv.2) payload
  let (secret, ctr') := get_jwt_secret env ctr
  ({ payload := payload, signedWith := secret }, ctr')

/-- verify_token: jwt.decode with the current get_jwt_secret — an invalid
signature or an expired exp claim yields None (PyJWT treats exp ≤ now as
expired; a non-numeric exp is a decode error).  Returns the payload
otherwise. -/
def verify_token (env : AuthEnv) (ctr : Nat) (now : Int) (token : JwtToken) :
    Option (List (String × Json)) × Nat :=
  let (secret, ctr') := get_jwt_secret env ctr
  if token.signedWith == secret then
    match pyGet token.payload "exp" with
    | some (.num e) => (if e ≤ now then none else some token.payload, ctr')
    | some _ => (none, ctr')
    | none => (some token.payload, ctr')
  else (none, ctr')

/-! ## Base64 and chunking (src/utils/artifact_sender.py, src/api/server.py)

Byte strings are lists of naturals below 256.  base64 is embedded directly:
the encoder is what base64.b64encode computes, and the decoder is
base64.b64decode on canonical base64 text, with none standing for the
binascii error raised on malformed input. -/

/-- The base64 alphabet in index order. -/
def b64chars : List Char :=
  "ABCDEFGHIJKLMNOPQRSTUVWXYZabcdefghijklmnopqrstuvwxyz0123456789+/".data

/-- The character encoding a 6-bit group. -/
def b64encChar (n : Nat) : Char := b64chars.getD n '?'

/-- Scan for a character starting at a given index. -/
def findIdxFrom (c : Char) : List Char → Nat → Option Nat
  | [], _ => none
  | d :: rest, i => if d = c then some i else findIdxFrom c rest (i + 1)

/-- The 6-bit group a character decodes to (none outside the alphabet). -/
def b64decChar (c : Char) : Option Nat := findIdxFrom c b64chars 0

/-- base64.b64encode: groups of three bytes become four alphabet characters;
a final group of one or two bytes is closed with = padding. -/
def b64encode : List Nat → List Char
  | [] => []
  | [a] => [b64encChar (a / 4), b64encChar (a % 4 * 16), '=', '=']
  | [a, b] => [b64encChar (a / 4), b64encChar (a % 4 * 16 + b / 16),
               b64encChar (b % 16 * 4), '=']
  | a :: b :: c :: rest =>
      b64encChar (a / 4) :: b64encChar (a % 4 * 16 + b / 16) ::
      b64encChar (b % 16 * 4 + c / 64) :: b64encChar (c % 64) :: b64encode rest

/-- base64.b64decode on canonical base64 text: quartets of alphabet
characters yield three bytes, a final =-padded quartet one or two; anything
else raises binascii.Error (none). -/
def b64decode : List Char → Option (List Nat)
  | [] => some []
  | c1 :: c2 :: c3 :: c4 :: rest =>
    match b64decChar c1, b64decChar c2 with
    | some n1, some n2 =>
      if c3 = '=' then
        if c4 = '=' then
          if rest.isEmpty then some [n1 * 4 + n2 / 16] else none
        else none
      else
        match b64decChar c3 with
        | some n3 =>
          if c4 = '=' then
            if rest.isEmpty then some [n1 * 4 + n2 / 16, n2 % 16 * 16 + n3 / 4]
            else none
          else
            match b64decChar c4, b64decode rest with
            | some n4, some tail =>
              some ((n1 * 4 + n2 / 16) :: (n2 % 16 * 16 + n3 / 4) ::
                    (n3 % 4 * 64 + n4) :: tail)
            | _, _ => none
        | none => none
    | _, _ => none
  | _ => none

/-- The slicing loop of ArtifactSender._split_into_chunks: successive
chunk_size-byte slices of the payload (a zero chunk_size makes Python's
range raise; the model returns no chunks there, a case outside every claim,
which all require chunk size at least one). -/
def chunkBytes (chunk_size : Nat) (data : List Nat) : List (List Nat) :=
  if h : data.isEmpty ∨ chunk_size = 0 then []
  else data.take chunk_size :: chunkBytes chunk_size (data.drop chunk_size)
termination_by data.length
decreasing_by
  rcases not_or.mp h with ⟨h1, h2⟩
  have hd : data ≠ [] := by simpa [List.isEmpty_iff] using h1
  have : 0 < data.length := List.length_pos.mpr hd
  simp only [List.length_drop]
  omega

/-- ArtifactSender._split_into_chunks: utf-8 bytes sliced into
chunk_size-byte pieces, each base64-encoded for transport. -/
def split_into_chunks (chunk_size : Nat) (data : List Nat) : List (List Char) :=
  (chunkBytes chunk_size data).map b64encode

/-- ArtifactSender._calculate_chunks: ceiling division of the payload size
by the chunk size. -/
def calculate_chunks (chunk_size : Nat) (data : List Nat) : Nat :=
  (data.length + chunk_size - 1) / chunk_size

/-- Failure modes inside finalize_chunked_upload's try block. -/
inductive ReassembleError where
  | missingChunk (i : Int)
  | badBase64
  | badDocument

/-- The reassembly loop of finalize_chunked_upload: look up each chunk
number in the session's received-chunk dict (KeyError when absent) and
base64-decode it, in the given order. -/
def decodeChunks (received : List (Int × List Char)) :
    List Int → Except ReassembleError (List (List Nat))
  | [] => .ok []
  | i :: rest =>
    match pyGet received i with
    | none => .error (.missingChunk i)
    | some s =>
      match b64decode s with
      | none => .error .badBase64
      | some bytes =>
        match decodeChunks received rest with
        | .ok tl => .ok (bytes :: tl)
        | .error e => .error e

/-- Chunk numbers 0 .. total-1 as Python ints: the iteration order of
for i in range(total_chunks) in finalize. -/
def chunkRange (total : Nat) : List Int := (List.range total).map Int.ofNat

/-- The received-chunk dict after the sender uploads chunk i with
chunk_number i for every i in ascending order. -/
def enumChunksFrom (i : Int) : List (List Char) → List (Int × List Char)
  | [] => []
  | c :: rest => (i, c) :: enumChunksFrom (i + 1) rest

/-- Helper for relating chunkRange to the enumeration: the ints k, k+1, ...,
k+n-1 in order. -/
def intsFrom (k : Int) : Nat → List Int
  | 0 => []
  | n + 1 => k :: intsFrom (k + 1) n

/-! ## Chunked-upload endpoints (src/api/server.py)

The in-memory chunked_uploads table is threaded explicitly; uuid4, the
clock and the authenticated user are parameters.  db.store_artifact's
possible filesystem failure is the storeOk flag, and utf-8 decoding plus
json.loads of the reassembled bytes is the parse parameter (none for either
failure).  Each endpoint returns its outcome paired with the table after the
request. -/

/-- One entry of the chunked_uploads dict. -/
structure Session where
  metadata : Json
  total_chunks : Int
  received_chunks : List (Int × List Char)
  created_at : String
  user_id : String

/-- Request body of chunked/init (pydantic validates types only: any int is
accepted as total_chunks). -/
structure ChunkedUploadInit where
  metadata : Json
  total_chunks : Int

/-- Request body of chunked/.../chunk. -/
structure ChunkData where
  chunk_number : Int
  chunk_data : List Char
  is_last : Bool

/-- init_chunked_upload: unconditionally store a fresh session holding the
declared metadata and total_chunks with no received chunks, and return the
generated session id. -/
def init_chunked_upload (session_id : String) (now : String) (user_id : String)
    (init_data : ChunkedUploadInit) (table : List (String × Session)) :
    String × List (String × Session) :=
  (session_id,
   pyDictSet table session_id
     { metadata := init_data.metadata
       total_chunks := init_data.total_chunks
       received_chunks := []
       created_at := now
       user_id := user_id })

/-- Outcome of upload_chunk, by HTTP status. -/
inductive ChunkUploadOutcome where
  | ok (chunks_received : Nat) (total_chunks : Int)
  | sessionNotFound
  | notOwner
deriving DecidableEq

/-- upload_chunk: 404 for an unknown session, 403 for a non-owner, otherwise
store the chunk under its chunk_number (overwriting any previous payload at
that number) and acknowledge with the received/total counts. -/
def upload_chunk (user_id : String) (session_id : String) (cd : ChunkData)
    (table : List (String × Session)) :
    ChunkUploadOutcome × List (String × Session) :=
  match pyGet table session_id with
  | none => (.sessionNotFound, table)
  | some session =>
    if session.user_id != user_id then (.notOwner, table)
    else
      let session' := { session with
        received_chunks := pyDictSet session.received_chunks cd.chunk_number cd.chunk_data }
      (.ok session'.received_chunks.length session'.total_chunks,
       pyDictSet table session_id session')

/-- Python indexing value[key]: KeyError or TypeError (none) when the value
is not an object holding the key. -/
def pyIndex (v : Json) (k : String) : Option Json :=
  match v with
  | .obj fields => pyGet fields k
  | _ => none

/-- The artifact_doc construction inside finalize's try block: indexes the
session metadata's five submitted fields and the parsed document's
artifacts key; a missing key raises into the except branch (none). -/
def buildArtifactDoc (artifact_id created_at created_by : String)
    (metadata : Json) (artifact_data : Json) : Option Json := do
  let cid ← pyIndex metadata "container_id"
  let ts ← pyIndex metadata "collection_timestamp"
  let host ← pyIndex metadata "collection_host"
  let cnt ← pyIndex metadata "artifact_count"
  let cks ← pyIndex metadata "checksum"
  let arts ← pyIndex artifact_data "artifacts"
  pure (.obj [("id", .str artifact_id), ("container_id", cid),
    ("collection_timestamp", ts), ("collection_host", host),
    ("artifact_count", cnt), ("checksum", cks),
    ("created_at", .str created_at), ("created_by", .str created_by),
    ("status", .str "received"), ("artifacts", arts),
    ("upload_method", .str "chunked")])

/-- The reassembly of finalize's try block: decode chunks 0..total-1 from
the received dict, join the bytes, decode utf-8 and parse JSON. -/
def reassembleSession (parse : List Nat → Option Json) (session : Session) :
    Except ReassembleError Json :=
  match decodeChunks session.received_chunks (chunkRange session.total_chunks.toNat) with
  | .error e => .error e
  | .ok chunks =>
    match parse chunks.join with
    | none => .error .badDocument
    | some j => .ok j

/-- Outcome of finalize_chunked_upload, by HTTP status: 200, 404, 403, the
400 chunk-count ValidationFailure, or the 500 raised from the try block. -/
inductive FinalizeOutcome where
  | ok (artifact_id : String)
  | sessionNotFound
  | notOwner
  | missingChunks (received : Nat) (expected : Int)
  | internalError
deriving DecidableEq

/-- finalize_chunked_upload: 404 for an unknown session, 403 for a
non-owner, 400 when the received-chunk count differs from the declared
total; then reassemble, build the artifact document and store it — any
failure in that try block is a 500 leaving the session in place — and only
after a successful store delete the session and answer 200. -/
def finalize_chunked_upload (parse : List Nat → Option Json) (storeOk : Bool)
    (artifact_id : String) (now : String) (user_id : String) (session_id : String)
    (table : List (String × Session)) :
    FinalizeOutcome × List (String × Session) :=
  match pyGet table session_id with
  | none => (.sessionNotFound, table)
  | some session =>
    if session.user_id != user_id then (.notOwner, table)
    else if (session.received_chunks.length : Int) != session.total_chunks then
      (.missingChunks session.received_chunks.length session.total_chunks, table)
    else
      match reassembleSession parse session with
      | .error _ => (.internalError, table)
      | .ok artifact_data =>
        match buildArtifactDoc artifact_id now user_id session.metadata artifact_data with
        | none => (.internalError, table)
        | some _ =>
          if storeOk then (.ok artifact_id, pyDictDel table session_id)
          else (.internalError, table)

/-! ## ArtifactSender transmission loops (src/utils/artifact_sender.py)

The HTTP wire is a script of scheduled outcomes.  _send_direct performs one
POST per iteration of its retry loop, so its script is indexed by the
attempt number; _send_chunked performs one POST per init/chunk/finalize call
and restarts consume further events, so its script is a list consumed one
event per call, an exhausted script standing for a raised requests
exception.  _login after a 401 succeeds or fails as scheduled alongside the
response that triggered it. -/

/-- What one HTTP request from _send_direct can produce. -/
inductive HttpResp where
  | status (code : Nat)
  | timeout
  | connError
  | otherExc
deriving DecidableEq

/-- The scheduled outcome of one _send_direct attempt: the response, and
whether the forced re-login succeeds should this response be a 401. -/
structure DirectStep where
  resp : HttpResp
  reloginOk : Bool
deriving DecidableEq

/-- The value _send_direct returns, by exit path. -/
inductive SendResult where
  | success
  | reAuthFailed
  | switchedToChunked
  | httpFailure (code : Nat)
  | timeoutFailure
  | connFailure
  | unexpectedFailure
  | maxRetriesExceeded
deriving DecidableEq

/-- The retry loop of _send_direct over the remaining attempt numbers,
returning the result together with the backoff sleeps performed: 200/201
succeed; a 401 forces a re-login and, when it succeeds, continues with the
next attempt (no sleep), otherwise returns at once; 413 delegates to the
chunked path; any other status, a timeout or a connection error sleeps
2^attempt seconds and retries while attempts remain; an unexpected
exception returns at once; an exhausted loop reports max retries. -/
def send_direct_loop (script : Nat → DirectStep) : List Nat → SendResult × List Nat
  | [] => (.maxRetriesExceeded, [])
  | attempt :: rest =>
    match (script attempt).resp with
    | .status code =>
      if code = 200 ∨ code = 201 then (.success, [])
      else if code = 401 then
        if (script attempt).reloginOk then send_direct_loop script rest
        else (.reAuthFailed, [])
      else if code = 413 then (.switchedToChunked, [])
      else if rest.isEmpty then (.httpFailure code, [])
      else
        let (r, waits) := send_direct_loop script rest
        (r, 2 ^ attempt :: waits)
    | .timeout =>
      if rest.isEmpty then (.timeoutFailure, [])
      else
        let (r, waits) := send_direct_loop script rest
        (r, 2 ^ attempt :: waits)
    | .connError =>
      if rest.isEmpty then (.connFailure, [])
      else
        let (r, waits) := send_direct_loop script rest
        (r, 2 ^ attempt :: waits)
    | .otherExc => (.unexpectedFailure, [])

/-- ArtifactSender._send_direct: run the retry loop over attempts
0 .. retry_count-1. -/
def send_direct (script : Nat → DirectStep) (retry_count : Nat) :
    SendResult × List Nat :=
  send_direct_loop script (List.range retry_count)

/-- The scheduled outcome of one HTTP call in the chunked flow. -/
structure ChunkedStep where
  code : Nat
  reloginOk : Bool
deriving DecidableEq

/-- The value _send_chunked returns, by exit path. -/
inductive ChunkedResult where
  | success
  | initFailed
  | chunkFailed (i : Nat)
  | finalizeFailed
  | exceptionFailure
deriving DecidableEq

/-- The finalize POST of _send_chunked: 200 succeeds, anything else — a 401
included — is returned as a finalize failure without re-authentication. -/
def finalize_call : List ChunkedStep → ChunkedResult
  | [] => .exceptionFailure
  | step :: _ => if step.code = 200 then .success else .finalizeFailed

/-- The chunk-upload loop of _send_chunked: POST each remaining chunk; any
non-200 response — a 401 included — aborts with that chunk's failure, with
no re-authentication and no restart; when all chunks are sent, finalize. -/
def upload_chunks_loop : Nat → Nat → List ChunkedStep → ChunkedResult
  | 0, _, script => finalize_call script
  | _ + 1, _, [] => .exceptionFailure
  | r + 1, sent, step :: rest =>
    if step.code = 200 then upload_chunks_loop r (sent + 1) rest
    else .chunkFailed sent

/-- ArtifactSender._send_chunked for a payload of total chunks: init the
session; on a 401 at init force one re-login and, when it succeeds, restart
the whole chunked flow from init; on any other init failure (or a failed
re-login) give up; then upload the chunks and finalize. -/
def send_chunked (total : Nat) : List ChunkedStep → ChunkedResult
  | [] => .exceptionFailure
  | initStep :: rest =>
    if initStep.code = 200 then upload_chunks_loop total 0 rest
    else if initStep.code = 401 then
      if initStep.reloginOk then send_chunked total rest
      else .initFailed
    else .initFailed

/-! ## Theorems -/

/-- C1: Serialize/persist/load round-trip of the checksum.  For every
container id and artifact document (and every behaviour of the ambient
host/user/timestamp and of SHA-256), the envelope produced by
serialize_artifacts — which is exactly the document save_to_local writes and
load_from_local re-parses — satisfies: the stored checksum is the hash
computed with the checksum field absent, recomputing it on load over the
key-sorted encoding with the checksum field removed yields that same stored
value, and load_from_local consequently succeeds without a
checksum-verification warning. -/
theorem C1_checksum_roundtrip (sha256hex : String → String) (env : SerializeEnv)
    (container_id : String) (artifacts : List (String × Json)) (doc : Json)
    (h : serialize_artifacts sha256hex env container_id artifacts = some doc) :
    envelopeStoredChecksum doc = envelopeRecomputedChecksum sha256hex doc ∧
    (envelopeStoredChecksum doc).isSome = true ∧
    load_from_local sha256hex doc = .ok doc false := by
  unfold serialize_artifacts at h
  cases he : collectErrors artifacts with
  | none => rw [he] at h; simp at h
  | some errs =>
  rw [he] at h
  simp only [Option.bind_eq_bind, Option.some_bind, Option.pure_def,
    Option.some.injEq] at h
  subst h
  simp only [serializeMetadata, pyDictSet, pyDictDel, pyGet,
    envelopeStoredChecksum, envelopeRecomputedChecksum, load_from_local,
    pyTruthy, String.reduceEq, reduceIte, Option.isSome_some, and_true, true_and]
  split
  · simp
  · rfl

/-- C8: Checksum mismatch on load is advisory.  For every well-formed saved
envelope (a JSON object whose metadata field is an object), load_from_local
returns the loaded document unchanged — including when the recomputed
checksum differs from the stored one — and a mismatch merely sets the logged
warning, never producing the failure path. -/
theorem C8_load_mismatch_advisory (sha256hex : String → String) :
    (∀ fields m, pyGet fields "metadata" = some (.obj m) →
      ∃ w, load_from_local sha256hex (.obj fields) = .ok (.obj fields) w) ∧
    (∀ fields m s, pyGet fields "metadata" = some (.obj m) →
      pyGet m "checksum" = some (.str s) → s ≠ "" →
      s ≠ sha256hex (dumps (.obj (pyDictSet fields "metadata"
        (.obj (pyDictDel m "checksum"))))) →
      load_from_local sha256hex (.obj fields) = .ok (.obj fields) true) := by
  constructor
  · intro fields m hm
    simp only [load_from_local, hm]
    cases hc : pyGet m "checksum" with
    | none => exact ⟨false, rfl⟩
    | some stored =>
      by_cases ht : pyTruthy stored = true
      · simp only [ht, if_true]
        exact ⟨_, rfl⟩
      · simp only [Bool.not_eq_true] at ht
        simp only [ht, Bool.false_eq_true, if_false]
        exact ⟨false, rfl⟩
  · intro fields m s hm hc hne hmis
    simp only [load_from_local, hm, hc, pyTruthy]
    rw [if_pos (by simp [bne_iff_ne, hne])]
    simp [bne_iff_ne, hmis]

/-- C1 witness: a concrete serialize/load round trip with an explicit hash
function, container id and (empty) artifact document. -/
theorem C1_checksum_roundtrip_witness :
    load_from_local (fun s => toString s.length)
      (Json.obj [("metadata", Json.obj
        [("version", Json.str "2.0"),
         ("container_id", Json.str "abc123"),
         ("collection_timestamp", Json.str "ts"),
         ("collection_host", Json.str "host"),
         ("collection_user", Json.str "user"),
         ("artifact_count", Json.num 0),
         ("errors", Json.arr []),
         ("checksum", Json.str (toString (dumps (Json.obj
           [("metadata", Json.obj
             [("version", Json.str "2.0"),
              ("container_id", Json.str "abc123"),
              ("collection_timestamp", Json.str "ts"),
              ("collection_host", Json.str "host"),
              ("collection_user", Json.str "user"),
              ("artifact_count", Json.num 0),
              ("errors", Json.arr [])]),
            ("artifacts", Json.obj [])])).length))]),
        ("artifacts", Json.obj [])]) =
      .ok (Json.obj [("metadata", Json.obj
        [("version", Json.str "2.0"),
         ("container_id", Json.str "abc123"),
         ("collection_timestamp", Json.str "ts"),
         ("collection_host", Json.str "host"),
         ("collection_user", Json.str "user"),
         ("artifact_count", Json.num 0),
         ("errors", Json.arr []),
         ("checksum", Json.str (toString (dumps (Json.obj
           [("metadata", Json.obj
             [("version", Json.str "2.0"),
              ("container_id", Json.str "abc123"),
              ("collection_timestamp", Json.str "ts"),
              ("collection_host", Json.str "host"),
              ("collection_user", Json.str "user"),
              ("artifact_count", Json.num 0),
              ("errors", Json.arr [])]),
            ("artifacts", Json.obj [])])).length))]),
        ("artifacts", Json.obj [])]) false :=
  (C1_checksum_roundtrip (fun s => toString s.length) ⟨"ts", "host", "user"⟩
    "abc123" [] _ rfl).2.2

/-- C8 witness: a concrete envelope whose stored checksum disagrees with the
recomputed one is still returned, with the warning flag set. -/
theorem C8_load_mismatch_advisory_witness :
    load_from_local (fun _ => "deadbeef")
      (Json.obj [("metadata", Json.obj [("checksum", Json.str "00")]),
                 ("artifacts", Json.obj [])]) =
      .ok (Json.obj [("metadata", Json.obj [("checksum", Json.str "00")]),
                     ("artifacts", Json.obj [])]) true :=
  (C8_load_mismatch_advisory (fun _ => "deadbeef")).2
    [("metadata", Json.obj [("checksum", Json.str "00")]), ("artifacts", Json.obj [])]
    [("checksum", Json.str "00")] "00" rfl rfl (by decide) (by decide)

/-- C6: Auth-gate bypass asymmetry.  With a truthy expected API key
configured, verify_api_key accepts exactly the matching candidate (the
comparison the code performs with secrets.compare_digest, i.e. constant-time
string equality); with the key unset — or set to the empty string, which the
code's falsiness test treats as unconfigured — every candidate is accepted. -/
theorem C6_auth_gate_asymmetry :
    (∀ env expected provided, get_api_key env = some expected → expected ≠ "" →
      (verify_api_key env provided = true ↔ provided = expected)) ∧
    (∀ env provided, get_api_key env = none → verify_api_key env provided = true) ∧
    (∀ env provided, get_api_key env = some "" → verify_api_key env provided = true) := by
  refine ⟨?_, ?_, ?_⟩
  · intro env expected provided hk hne
    simp [verify_api_key, hk, hne]
  · intro env provided hk
    simp [verify_api_key, hk]
  · intro env provided hk
    simp [verify_api_key, hk]

/-- C6 witness: with key s3cr3t configured the wrong candidate is rejected
and the right one accepted; with no key configured anything is accepted. -/
theorem C6_auth_gate_asymmetry_witness :
    verify_api_key ⟨some "s3cr3t", none, fun _ => ""⟩ "s3cr3t" = true ∧
    verify_api_key ⟨some "s3cr3t", none, fun _ => ""⟩ "wrong" = false ∧
    verify_api_key ⟨none, none, fun _ => ""⟩ "anything" = true := by
  have hright := (C6_auth_gate_asymmetry.1 ⟨some "s3cr3t", none, fun _ => ""⟩
    "s3cr3t" "s3cr3t" rfl (by decide)).mpr rfl
  have hwrong := C6_auth_gate_asymmetry.1 ⟨some "s3cr3t", none, fun _ => ""⟩
    "s3cr3t" "wrong" rfl (by decide)
  have hopen := C6_auth_gate_asymmetry.2.1 ⟨none, none, fun _ => ""⟩ "anything" rfl
  refine ⟨hright, ?_, hopen⟩
  simpa using hwrong

/-- C9: Token issue-then-verify round-trip depends on a stable configured
secret.  With the JWT secret environment variable set (non-empty), a freshly
generated token verifies to its payload while unexpired; with it unset,
get_jwt_secret draws a fresh random secret on each call, so the secret used
to verify differs from the one used to sign and verification returns None. -/
theorem C9_jwt_secret_stability :
    (∀ env ctr now t uid claims s,
      env.jwtSecretEnv = some s → s ≠ "" →
      ∀ e, pyGet (generate_token env ctr now uid claims).1.payload "exp" = some (.num e) →
      t < e →
      (verify_token env (generate_token env ctr now uid claims).2 t
        (generate_token env ctr now uid claims).1).1 =
        some (generate_token env ctr now uid claims).1.payload) ∧
    (∀ env ctr now t uid claims,
      env.jwtSecretEnv = none →
      env.randomSecret ctr ≠ env.randomSecret (ctr + 1) →
      (verify_token env (generate_token env ctr now uid claims).2 t
        (generate_token env ctr now uid claims).1).1 = none) := by
  constructor
  · intro env ctr now t uid claims s henv hne e he ht
    have hnl : ¬ e ≤ t := by omega
    simp only [generate_token, get_jwt_secret, henv, if_neg hne] at he ⊢
    simp [verify_token, get_jwt_secret, henv, hne, he, hnl]
  · intro env ctr now t uid claims henv hne
    simp [verify_token, generate_token, get_jwt_secret, henv, hne]

/-- C9 witness: with a configured secret a fresh token round-trips to its
payload; with no secret configured and a generator that returns distinct
values, the freshly issued token fails verification. -/
theorem C9_jwt_secret_stability_witness :
    (verify_token ⟨none, some "topsecret", fun _ => ""⟩
      (generate_token ⟨none, some "topsecret", fun _ => ""⟩ 0 0 "u" []).2 10
      (generate_token ⟨none, some "topsecret", fun _ => ""⟩ 0 0 "u" []).1).1 =
      some [("user_id", Json.str "u"), ("exp", Json.num 86400),
            ("iat", Json.num 0), ("iss", Json.str "docker-forensics-api")] ∧
    (verify_token ⟨none, none, fun n => toString n⟩
      (generate_token ⟨none, none, fun n => toString n⟩ 0 0 "u" []).2 10
      (generate_token ⟨none, none, fun n => toString n⟩ 0 0 "u" []).1).1 = none := by
  constructor
  · exact C9_jwt_secret_stability.1 ⟨none, some "topsecret", fun _ => ""⟩ 0 0 10 "u" []
      "topsecret" rfl (by decide) 86400 rfl (by decide)
  · exact C9_jwt_secret_stability.2 ⟨none, none, fun n => toString n⟩ 0 0 10 "u" []
      rfl (by decide)

/-- Decoding inverts encoding on each 6-bit group. -/
theorem b64decChar_encChar : ∀ n < 64, b64decChar (b64encChar n) = some n := by
  decide

/-- Alphabet characters are never the padding character. -/
theorem b64encChar_ne_pad : ∀ n < 64, b64encChar n ≠ '=' := by
  decide

/-- base64 decode inverts encode on every byte string. -/
theorem b64decode_encode : ∀ s : List Nat, (∀ b ∈ s, b < 256) →
    b64decode (b64encode s) = some s := by
  intro s
  induction s using b64encode.induct with
  | case1 => intro _; rfl
  | case2 a =>
    intro hs
    have ha : a < 256 := hs a (by simp)
    simp only [b64encode, b64decode,
      b64decChar_encChar (a / 4) (by omega),
      b64decChar_encChar (a % 4 * 16) (by omega)]
    simp only [List.isEmpty_nil, if_true, reduceIte, Option.some.injEq,
      List.cons.injEq, and_true]
    omega
  | case3 a b =>
    intro hs
    have ha : a < 256 := hs a (by simp)
    have hb : b < 256 := hs b (by simp)
    simp only [b64encode, b64decode,
      b64decChar_encChar (a / 4) (by omega),
      b64decChar_encChar (a % 4 * 16 + b / 16) (by omega)]
    rw [if_neg (b64encChar_ne_pad (b % 16 * 4) (by omega))]
    simp only [b64decChar_encChar (b % 16 * 4) (by omega)]
    simp only [List.isEmpty_nil, reduceIte, Option.some.injEq, List.cons.injEq,
      and_true]
    omega
  | case4 a b c rest ih =>
    intro hs
    have ha : a < 256 := hs a (by simp)
    have hb : b < 256 := hs b (by simp)
    have hc : c < 256 := hs c (by simp)
    have hrest : ∀ x ∈ rest, x < 256 := fun x hx => hs x (by simp [hx])
    simp only [b64encode, b64decode,
      b64decChar_encChar (a / 4) (by omega),
      b64decChar_encChar (a % 4 * 16 + b / 16) (by omega)]
    rw [if_neg (b64encChar_ne_pad (b % 16 * 4 + c / 64) (by omega))]
    simp only [b64decChar_encChar (b % 16 * 4 + c / 64) (by omega)]
    rw [if_neg (b64encChar_ne_pad (c % 64) (by omega))]
    simp only [b64decChar_encChar (c % 64) (by omega), ih hrest,
      Option.some.injEq, List.cons.injEq, and_true]
    omega

/-- Concatenating the slices restores the payload. -/
theorem chunkBytes_join (C : Nat) (s : List Nat) : 1 ≤ C →
    (chunkBytes C s).join = s := by
  induction s using chunkBytes.induct C with
  | case1 s h =>
    intro hC
    rw [chunkBytes, dif_pos h]
    rcases h with h1 | h2
    · have : s = [] := by simpa [List.isEmpty_iff] using h1
      simp [this]
    · omega
  | case2 s h ih =>
    intro hC
    rw [chunkBytes, dif_neg h]
    simp [ih hC]

/-- The number of slices is the ceiling of size over chunk size. -/
theorem chunkBytes_length (C : Nat) (s : List Nat) : 1 ≤ C →
    (chunkBytes C s).length = (s.length + C - 1) / C := by
  induction s using chunkBytes.induct C with
  | case1 s h =>
    intro hC
    rw [chunkBytes, dif_pos h]
    rcases h with h1 | h2
    · have hs : s = [] := by simpa [List.isEmpty_iff] using h1
      subst hs
      simp [Nat.div_eq_of_lt (show C - 1 < C by omega)]
    · omega
  | case2 s h ih =>
    intro hC
    rcases not_or.mp h with ⟨h1, h2⟩
    have hd : s ≠ [] := by simpa [List.isEmpty_iff] using h1
    have hlen : 0 < s.length := List.length_pos.mpr hd
    rw [chunkBytes, dif_neg h]
    simp only [List.length_cons, ih hC, List.length_drop]
    rcases le_or_lt s.length C with hle | hlt
    · have e1 : s.length - C = 0 := by omega
      rw [e1, Nat.div_eq_of_lt (show 0 + C - 1 < C by omega)]
      symm
      apply Nat.div_eq_of_lt_le <;> omega
    · have e1 : s.length - C + C - 1 = s.length - 1 := by omega
      have e2 : s.length + C - 1 = s.length - 1 + C := by omega
      rw [e1, e2, Nat.add_div_right _ (by omega)]

/-- Every slice draws its bytes from the payload. -/
theorem chunkBytes_mem_subset (C : Nat) (s : List Nat) :
    ∀ chunk ∈ chunkBytes C s, chunk ⊆ s := by
  induction s using chunkBytes.induct C with
  | case1 s h =>
    rw [chunkBytes, dif_pos h]
    intro chunk hc
    simp at hc
  | case2 s h ih =>
    rw [chunkBytes, dif_neg h]
    intro chunk hc
    rcases List.mem_cons.mp hc with h1 | h2
    · subst h1; exact List.take_subset _ _
    · exact fun x hx => List.drop_subset _ _ (ih chunk h2 hx)

/-- Every chunk number the session holds after an ascending enumeration is
at least the starting index. -/
theorem intsFrom_mem_ge : ∀ (n : Nat) (k i : Int), i ∈ intsFrom k n → k ≤ i := by
  intro n
  induction n with
  | zero => intro k i h; simp [intsFrom] at h
  | succ m ih =>
    intro k i h
    rw [intsFrom] at h
    rcases List.mem_cons.mp h with h1 | h2
    · omega
    · have := ih (k + 1) i h2; omega

/-- A received-chunk binding whose number occurs in none of the looked-up
indices does not affect the reassembly loop. -/
theorem decodeChunks_cons_ne (kc : Int × List Char) (R : List (Int × List Char))
    (l : List Int) (h : ∀ i ∈ l, i ≠ kc.1) :
    decodeChunks (kc :: R) l = decodeChunks R l := by
  induction l with
  | nil => rfl
  | cons i rest ih =>
    have hne : kc.1 ≠ i := fun he => (h i (List.mem_cons_self i rest)) he.symm
    simp only [decodeChunks, pyGet, if_neg hne,
      ih (fun j hj => h j (List.mem_cons_of_mem _ hj))]

/-- Reassembling an ascending enumeration of encoded chunks recovers them
all, in order. -/
theorem decodeChunks_enum : ∀ (bs : List (List Nat)) (k : Int),
    (∀ chunk ∈ bs, ∀ b ∈ chunk, b < 256) →
    decodeChunks (enumChunksFrom k (bs.map b64encode)) (intsFrom k bs.length) =
      .ok bs := by
  intro bs
  induction bs with
  | nil => intro k _; rfl
  | cons chunk rest ih =>
    intro k h
    simp only [List.map_cons, enumChunksFrom, List.length_cons, intsFrom]
    have e1 : pyGet ((k, b64encode chunk) ::
        enumChunksFrom (k + 1) (rest.map b64encode)) k = some (b64encode chunk) := by
      simp [pyGet]
    have e2 : decodeChunks ((k, b64encode chunk) ::
          enumChunksFrom (k + 1) (rest.map b64encode)) (intsFrom (k + 1) rest.length) =
        decodeChunks (enumChunksFrom (k + 1) (rest.map b64encode))
          (intsFrom (k + 1) rest.length) :=
      decodeChunks_cons_ne _ _ _
        (fun i hi => show i ≠ k by have := intsFrom_mem_ge _ _ _ hi; omega)
    simp only [decodeChunks, e1, e2, b64decode_encode chunk (h chunk (by simp)),
      ih (k + 1) (fun c hc b hb => h c (by simp [hc]) b hb)]

/-- The ints k, ..., k+n-1 are the mapped range. -/
theorem intsFrom_eq (n : Nat) : ∀ k : Int,
    intsFrom k n = (List.range n).map (fun j : Nat => k + (j : Int)) := by
  induction n with
  | zero => intro k; rfl
  | succ m ih =>
    intro k
    rw [intsFrom, List.range_succ_eq_map, List.map_cons, List.map_map, ih (k + 1)]
    congr 1
    · simp
    · congr 1
      funext j
      simp only [Function.comp_apply]
      push_cast
      ring

/-- The finalize loop's index order is the ascending enumeration from 0. -/
theorem chunkRange_eq (n : Nat) : chunkRange n = intsFrom 0 n := by
  rw [intsFrom_eq, chunkRange]
  apply List.map_congr_left
  intro j _
  simp

/-- C2: Chunk split/reassembly round-trip.  Splitting any byte string S into
C-byte slices and base64-encoding each, as _split_into_chunks does, yields
ceil(size/C) chunks (the count _calculate_chunks declares); looking each
chunk number 0..count-1 up in the received-chunk table, base64-decoding and
concatenating, as finalize's reassembly loop does, returns exactly S. -/
theorem C2_chunk_split_reassembly (S : List Nat) (C : Nat)
    (hS : ∀ b ∈ S, b < 256) (hC : 1 ≤ C) :
    (split_into_chunks C S).length = calculate_chunks C S ∧
    (decodeChunks (enumChunksFrom 0 (split_into_chunks C S))
        (chunkRange (split_into_chunks C S).length)).map List.join = .ok S := by
  have hchunks : ∀ chunk ∈ chunkBytes C S, ∀ b ∈ chunk, b < 256 :=
    fun chunk hc b hb => hS b (chunkBytes_mem_subset C S chunk hc hb)
  constructor
  · simp [split_into_chunks, calculate_chunks, chunkBytes_length C S hC]
  · rw [split_into_chunks, List.length_map, chunkRange_eq]
    rw [decodeChunks_enum (chunkBytes C S) 0 hchunks]
    exact congrArg Except.ok (chunkBytes_join C S hC)

/-- C2 witness: the three bytes of Hi! split into two 2-byte chunks and
reassemble to the original string. -/
theorem C2_chunk_split_reassembly_witness :
    (split_into_chunks 2 [72, 105, 33]).length = calculate_chunks 2 [72, 105, 33] ∧
    (decodeChunks (enumChunksFrom 0 (split_into_chunks 2 [72, 105, 33]))
        (chunkRange (split_into_chunks 2 [72, 105, 33]).length)).map List.join =
      .ok [72, 105, 33] :=
  C2_chunk_split_reassembly [72, 105, 33] 2 (by decide) (by decide)

/-- Setting a key makes it retrievable with the stored value. -/
theorem pyGet_pyDictSet_self {κ α : Type} [DecidableEq κ]
    (t : List (κ × α)) (k : κ) (v : α) : pyGet (pyDictSet t k v) k = some v := by
  induction t with
  | nil => simp [pyDictSet, pyGet]
  | cons kv rest ih =>
    obtain ⟨k', v'⟩ := kv
    by_cases h : k' = k
    · simp [pyDictSet, pyGet, h]
    · simp [pyDictSet, pyGet, h, ih]

/-- C5 counterexample: a chunked-upload init with total_chunks = 0 does not
fail with a ValidationFailure — the endpoint returns the session id and a
session with the non-positive declared count is created in the table,
refuting the claimed rejection at this input. -/
theorem C5_counterexample :
    (init_chunked_upload "sid-1" "2026-01-01" "alice" ⟨Json.null, 0⟩ []).1 = "sid-1" ∧
    pyGet (init_chunked_upload "sid-1" "2026-01-01" "alice" ⟨Json.null, 0⟩ []).2 "sid-1" =
      some { metadata := Json.null, total_chunks := 0, received_chunks := [],
             created_at := "2026-01-01", user_id := "alice" } :=
  ⟨rfl, rfl⟩

/-- C5 amended: init_chunked_upload performs no validation of total_chunks —
for every declared chunk count, zero and negative included, it creates a
session carrying exactly that count and returns the generated session id. -/
theorem C5_init_accepts_all_counts (session_id now user_id : String)
    (init_data : ChunkedUploadInit) (table : List (String × Session)) :
    (init_chunked_upload session_id now user_id init_data table).1 = session_id ∧
    pyGet (init_chunked_upload session_id now user_id init_data table).2 session_id =
      some { metadata := init_data.metadata, total_chunks := init_data.total_chunks,
             received_chunks := [], created_at := now, user_id := user_id } :=
  ⟨rfl, pyGet_pyDictSet_self table session_id _⟩

/-- A failing try block in finalize (reassembly, parse or document
construction) answers 500 and leaves the session table untouched. -/
theorem finalize_reassemble_error (parse : List Nat → Option Json) (storeOk : Bool)
    (artifact_id now user_id session_id : String) (table : List (String × Session))
    (session : Session) (e : ReassembleError)
    (hs : pyGet table session_id = some session)
    (hu : session.user_id = user_id)
    (hcnt : (session.received_chunks.length : Int) = session.total_chunks)
    (hre : reassembleSession parse session = .error e) :
    finalize_chunked_upload parse storeOk artifact_id now user_id session_id table =
      (.internalError, table) := by
  have hub : (session.user_id != user_id) = false := by simp [hu]
  have hcb : ((session.received_chunks.length : Int) != session.total_chunks) = false := by
    simp [hcnt]
  simp [finalize_chunked_upload, hs, hub, hcb, hre]

/-- C3: Finalize chunk-count gate and session lifecycle.  finalize succeeds
only when the received-chunk count equals the declared total and deletes the
session exactly then; fewer chunks than declared is the 400
ValidationFailure with the session kept; a reassembly failure is the
reported 500 with the session kept; every non-success outcome leaves the
table unchanged. -/
theorem C3_finalize_count_gate_lifecycle (parse : List Nat → Option Json)
    (storeOk : Bool) (artifact_id now user_id session_id : String)
    (table : List (String × Session)) :
    ((finalize_chunked_upload parse storeOk artifact_id now user_id session_id table).1 =
        .ok artifact_id →
      ∃ session, pyGet table session_id = some session ∧
        (session.received_chunks.length : Int) = session.total_chunks ∧
        (finalize_chunked_upload parse storeOk artifact_id now user_id session_id table).2 =
          pyDictDel table session_id) ∧
    ((finalize_chunked_upload parse storeOk artifact_id now user_id session_id table).1 ≠
        .ok artifact_id →
      (finalize_chunked_upload parse storeOk artifact_id now user_id session_id table).2 =
        table) ∧
    (∀ session, pyGet table session_id = some session → session.user_id = user_id →
      session.received_chunks.length < session.total_chunks →
      finalize_chunked_upload parse storeOk artifact_id now user_id session_id table =
        (.missingChunks session.received_chunks.length session.total_chunks, table)) ∧
    (∀ session e, pyGet table session_id = some session → session.user_id = user_id →
      (session.received_chunks.length : Int) = session.total_chunks →
      reassembleSession parse session = .error e →
      finalize_chunked_upload parse storeOk artifact_id now user_id session_id table =
        (.internalError, table)) := by
  refine ⟨?_, ?_, ?_, ?_⟩
  case refine_3 =>
    intro session hs hu hlt
    have hub : (session.user_id != user_id) = false := by simp [hu]
    have hcb : ((session.received_chunks.length : Int) != session.total_chunks) = true := by
      simp only [bne_iff_ne, ne_eq, decide_eq_true_eq]
      omega
    simp [finalize_chunked_upload, hs, hub, hcb]
  case refine_4 =>
    intro session e hs hu hcnt hre
    exact finalize_reassemble_error parse storeOk artifact_id now user_id session_id
      table session e hs hu hcnt hre
  all_goals
    cases hs : pyGet table session_id with
    | none =>
      simp [finalize_chunked_upload, hs]
    | some session =>
      by_cases hu : session.user_id = user_id
      case neg =>
        have hub : (session.user_id != user_id) = true := by
          simp only [bne_iff_ne, ne_eq, decide_eq_true_eq]; exact hu
        simp [finalize_chunked_upload, hs, hub]
      case pos =>
        have hub : (session.user_id != user_id) = false := by simp [hu]
        by_cases hcnt : (session.received_chunks.length : Int) = session.total_chunks
        case neg =>
          have hcb : ((session.received_chunks.length : Int) != session.total_chunks) = true := by
            simp only [bne_iff_ne, ne_eq, decide_eq_true_eq]; exact hcnt
          simp [finalize_chunked_upload, hs, hub, hcb]
        case pos =>
          have hcb : ((session.received_chunks.length : Int) != session.total_chunks) = false := by
            simp [hcnt]
          cases hre : reassembleSession parse session with
          | error e => simp [finalize_chunked_upload, hs, hub, hcb, hre]
          | ok ad =>
            cases hb : buildArtifactDoc artifact_id now user_id session.metadata ad with
            | none => simp [finalize_chunked_upload, hs, hub, hcb, hre, hb]
            | some doc =>
              cases storeOk with
              | false => simp [finalize_chunked_upload, hs, hub, hcb, hre, hb]
              | true =>
                simp only [finalize_chunked_upload, hs, hub, hcb, hre, hb,
                  Bool.false_eq_true, if_false, if_true]
                intro hcond
                first
                | exact ⟨session, rfl, hcnt, trivial⟩
                | exact absurd rfl hcond

/-- C3 witness: a session declaring two chunks but holding none is refused
with the 400 count mismatch and stays in the table. -/
theorem C3_finalize_count_gate_lifecycle_witness :
    finalize_chunked_upload (fun _ => none) true "aid" "now" "u" "sid"
      [("sid", ⟨Json.null, 2, [], "t", "u"⟩)] =
      (.missingChunks 0 2, [("sid", ⟨Json.null, 2, [], "t", "u"⟩)]) :=
  (C3_finalize_count_gate_lifecycle (fun _ => none) true "aid" "now" "u" "sid"
    [("sid", ⟨Json.null, 2, [], "t", "u"⟩)]).2.2.1
    ⟨Json.null, 2, [], "t", "u"⟩ rfl rfl (by decide)

/-- A dict lookup succeeds exactly when the key is among the stored keys. -/
theorem pyGet_isSome_iff {κ α : Type} [DecidableEq κ] (R : List (κ × α)) (k : κ) :
    (pyGet R k).isSome = true ↔ k ∈ R.map Prod.fst := by
  induction R with
  | nil => simp [pyGet]
  | cons kv rest ih =>
    obtain ⟨k', v⟩ := kv
    by_cases h : k' = k
    · simp [pyGet, h]
    · simp [pyGet, h, ih, Ne.symm h]

/-- A successful reassembly loop looked every requested chunk number up
successfully. -/
theorem decodeChunks_ok_lookups (R : List (Int × List Char)) :
    ∀ (l : List Int) (bs : List (List Nat)), decodeChunks R l = .ok bs →
      ∀ i ∈ l, (pyGet R i).isSome := by
  intro l
  induction l with
  | nil => intro bs _ i hi; simp at hi
  | cons j rest ih =>
    intro bs hok i hi
    cases hg : pyGet R j with
    | none => simp [decodeChunks, hg] at hok
    | some s =>
      rcases List.mem_cons.mp hi with h1 | h2
      · subst h1; simp [hg]
      · simp only [decodeChunks, hg] at hok
        cases hd : b64decode s with
        | none => rw [hd] at hok; simp at hok
        | some bytes =>
          rw [hd] at hok
          cases hrest : decodeChunks R rest with
          | error e => rw [hrest] at hok; simp at hok
          | ok tl => exact ih tl hrest i h2

/-- n distinct keys containing the n ints 0..n-1 are exactly those ints. -/
theorem keys_exact_of_sub (keys : List Int) (n : Nat) (hnd : keys.Nodup)
    (hlen : keys.length = n) (hsub : ∀ i < n, ((i : Nat) : Int) ∈ keys) :
    ∀ k ∈ keys, 0 ≤ k ∧ k < (n : Int) := by
  have himg : ((Finset.range n).image (Nat.cast : Nat → Int)) ⊆ keys.toFinset := by
    intro x hx
    simp only [Finset.mem_image, Finset.mem_range] at hx
    obtain ⟨i, hi, rfl⟩ := hx
    exact List.mem_toFinset.mpr (hsub i hi)
  have hcard1 : keys.toFinset.card = n := by
    rw [List.toFinset_card_of_nodup hnd, hlen]
  have hcard2 : ((Finset.range n).image (Nat.cast : Nat → Int)).card = n := by
    rw [Finset.card_image_of_injective _ Nat.cast_injective, Finset.card_range]
  have heq : ((Finset.range n).image (Nat.cast : Nat → Int)) = keys.toFinset :=
    Finset.eq_of_subset_of_card_le himg (le_of_eq (hcard1.trans hcard2.symm))
  intro k hk
  have hmem : k ∈ (Finset.range n).image (Nat.cast : Nat → Int) := by
    rw [heq]; exact List.mem_toFinset.mpr hk
  simp only [Finset.mem_image, Finset.mem_range] at hmem
  obtain ⟨i, hi, rfl⟩ := hmem
  constructor <;> omega

/-- C10: finalize's completeness check compares only the count of received
chunks against total_chunks.  For a session passing that check (with the
distinct keys a dict guarantees), the reassembly loop's lookups of chunk
numbers 0..total-1 are all free of missing-key failures iff the received
chunk numbers are exactly the set \x7b0, ..., total_chunks-1\x7d; whenever
they are not, finalize raises out of its try block into the 500 response and
the session stays in the table. -/
theorem C10_count_check_vs_key_set
    (parse : List Nat → Option Json) (storeOk : Bool)
    (artifact_id now user_id session_id : String)
    (table : List (String × Session)) (session : Session)
    (hs : pyGet table session_id = some session)
    (hu : session.user_id = user_id)
    (hnd : (session.received_chunks.map Prod.fst).Nodup)
    (hcnt : (session.received_chunks.length : Int) = session.total_chunks) :
    ((∀ i < session.total_chunks.toNat,
        (pyGet session.received_chunks ((i : Nat) : Int)).isSome) ↔
      (∀ k ∈ session.received_chunks.map Prod.fst,
        0 ≤ k ∧ k < session.total_chunks) ∧
      (∀ i < session.total_chunks.toNat,
        ((i : Nat) : Int) ∈ session.received_chunks.map Prod.fst)) ∧
    ((¬ ∀ i < session.total_chunks.toNat,
        (pyGet session.received_chunks ((i : Nat) : Int)).isSome) →
      finalize_chunked_upload parse storeOk artifact_id now user_id session_id table =
        (.internalError, table)) := by
  have hlen : (session.received_chunks.map Prod.fst).length =
      session.total_chunks.toNat := by
    simp only [List.length_map]
    omega
  have hn : (session.total_chunks.toNat : Int) = session.total_chunks := by omega
  constructor
  · constructor
    · intro hlook
      constructor
      · intro k hk
        obtain ⟨h1, h2⟩ := keys_exact_of_sub _ session.total_chunks.toNat hnd hlen
          (fun i hi => (pyGet_isSome_iff _ _).mp (hlook i hi)) k hk
        exact ⟨h1, by omega⟩
      · intro i hi
        exact (pyGet_isSome_iff _ _).mp (hlook i hi)
    · intro h i hi
      exact (pyGet_isSome_iff _ _).mpr (h.2 i hi)
  · intro hno
    have hex : ∃ e, reassembleSession parse session = .error e := by
      cases hdc : decodeChunks session.received_chunks
          (chunkRange session.total_chunks.toNat) with
      | error e => exact ⟨e, by simp [reassembleSession, hdc]⟩
      | ok bs =>
        exact absurd (fun i hi => decodeChunks_ok_lookups _ _ _ hdc (Int.ofNat i)
          (List.mem_map_of_mem _ (List.mem_range.mpr hi))) hno
    obtain ⟨e, he⟩ := hex
    exact finalize_reassemble_error parse storeOk artifact_id now user_id session_id
      table session e hs hu hcnt he

/-- C10 witness: a session whose two chunks are numbered 1 and 2 passes the
count check for total_chunks = 2, yet finalize answers 500 and the session
stays in the table. -/
theorem C10_count_check_vs_key_set_witness :
    finalize_chunked_upload (fun _ => none) true "aid" "now" "u" "sid"
      [("sid", ⟨Json.null, 2, [(1, ['A']), (2, ['B'])], "t", "u"⟩)] =
      (.internalError, [("sid", ⟨Json.null, 2, [(1, ['A']), (2, ['B'])], "t", "u"⟩)]) :=
  (C10_count_check_vs_key_set (fun _ => none) true "aid" "now" "u" "sid"
    [("sid", ⟨Json.null, 2, [(1, ['A']), (2, ['B'])], "t", "u"⟩)]
    ⟨Json.null, 2, [(1, ['A']), (2, ['B'])], "t", "u"⟩
    rfl rfl (by decide) (by decide)).2
    (fun h => absurd (h 0 (by decide)) (by decide))

/-- C4 counterexample: with retry_count = 1, a 401 whose forced re-login
succeeds consumes the only attempt — _send_direct reports max retries
exceeded without ever re-sending the request, so the 401 was not followed
by a retry of the same attempt and did consume one of the N slots.  Had the
401 left its slot unconsumed, the retried attempt would have met the
scheduled 500 and reported it, as the same script without its first event
shows. -/
theorem C4_counterexample :
    send_direct (fun k => if k = 0 then ⟨.status 401, true⟩ else ⟨.status 500, true⟩) 1 =
      (.maxRetriesExceeded, []) ∧
    send_direct (fun _ => ⟨.status 500, true⟩) 1 = (.httpFailure 500, []) ∧
    ((.maxRetriesExceeded, []) : SendResult × List Nat) ≠ (.httpFailure 500, []) :=
  ⟨rfl, rfl, by decide⟩

/-- C4 amended: in _send_direct a 401 forces a re-authentication and, when
it succeeds, the request is retried as the next attempt of the retry loop —
consuming one of the N attempts, with no backoff sleep on that path — while
a failed re-authentication returns immediately; any other non-success
status (not 200/201, 401 or 413) and the network errors — timeout and
connection error alike — are retried with an exponential backoff sleep of
2^attempt seconds while attempts remain and reported as the corresponding
failure once they run out. -/
theorem C4_direct_retry_semantics :
    (∀ script attempt rest, (script attempt).resp = .status 401 →
      (script attempt).reloginOk = true →
      send_direct_loop script (attempt :: rest) = send_direct_loop script rest) ∧
    (∀ script attempt rest, (script attempt).resp = .status 401 →
      (script attempt).reloginOk = false →
      send_direct_loop script (attempt :: rest) = (.reAuthFailed, [])) ∧
    (∀ script attempt rest code, (script attempt).resp = .status code →
      code ≠ 200 → code ≠ 201 → code ≠ 401 → code ≠ 413 → rest ≠ [] →
      send_direct_loop script (attempt :: rest) =
        ((send_direct_loop script rest).1,
         2 ^ attempt :: (send_direct_loop script rest).2)) ∧
    (∀ script attempt code, (script attempt).resp = .status code →
      code ≠ 200 → code ≠ 201 → code ≠ 401 → code ≠ 413 →
      send_direct_loop script [attempt] = (.httpFailure code, [])) ∧
    (∀ script attempt rest, (script attempt).resp = .timeout → rest ≠ [] →
      send_direct_loop script (attempt :: rest) =
        ((send_direct_loop script rest).1,
         2 ^ attempt :: (send_direct_loop script rest).2)) ∧
    (∀ script attempt, (script attempt).resp = .timeout →
      send_direct_loop script [attempt] = (.timeoutFailure, [])) ∧
    (∀ script attempt rest, (script attempt).resp = .connError → rest ≠ [] →
      send_direct_loop script (attempt :: rest) =
        ((send_direct_loop script rest).1,
         2 ^ attempt :: (send_direct_loop script rest).2)) ∧
    (∀ script attempt, (script attempt).resp = .connError →
      send_direct_loop script [attempt] = (.connFailure, [])) := by
  refine ⟨?_, ?_, ?_, ?_, ?_, ?_, ?_, ?_⟩
  · intro script attempt rest hresp hok
    simp [send_direct_loop, hresp, hok]
  · intro script attempt rest hresp hok
    simp [send_direct_loop, hresp, hok]
  · intro script attempt rest code hresp h200 h201 h401 h413 hrest
    simp only [send_direct_loop, hresp]
    rw [if_neg (by simp [h200, h201]), if_neg h401, if_neg h413,
      if_neg (by simp [List.isEmpty_iff, hrest])]
  · intro script attempt code hresp h200 h201 h401 h413
    simp only [send_direct_loop, hresp]
    rw [if_neg (by simp [h200, h201]), if_neg h401, if_neg h413,
      if_pos (by simp)]
  · intro script attempt rest hresp hrest
    simp only [send_direct_loop, hresp]
    rw [if_neg (by simp [List.isEmpty_iff, hrest])]
  · intro script attempt hresp
    simp only [send_direct_loop, hresp]
    rw [if_pos (by simp)]
  · intro script attempt rest hresp hrest
    simp only [send_direct_loop, hresp]
    rw [if_neg (by simp [List.isEmpty_iff, hrest])]
  · intro script attempt hresp
    simp only [send_direct_loop, hresp]
    rw [if_pos (by simp)]

/-- C4 witness: a 401 with successful re-login hands the remaining attempt
list on unchanged, a 500 on the last attempt is reported directly, a
timeout with an attempt left sleeps 2^attempt seconds and retries, and a
connection error on the last attempt is reported directly. -/
theorem C4_direct_retry_semantics_witness :
    send_direct_loop (fun _ => ⟨.status 401, true⟩) [0, 1] =
      send_direct_loop (fun _ => ⟨.status 401, true⟩) [1] ∧
    send_direct_loop (fun _ => ⟨.status 500, true⟩) [1] = (.httpFailure 500, []) ∧
    send_direct_loop (fun _ => ⟨.timeout, true⟩) [0, 1] =
      ((send_direct_loop (fun _ => ⟨.timeout, true⟩) [1]).1,
       1 :: (send_direct_loop (fun _ => ⟨.timeout, true⟩) [1]).2) ∧
    send_direct_loop (fun _ => ⟨.connError, true⟩) [1] = (.connFailure, []) :=
  ⟨C4_direct_retry_semantics.1 _ 0 [1] rfl rfl,
   C4_direct_retry_semantics.2.2.2.1 _ 1 500 rfl (by decide) (by decide)
     (by decide) (by decide),
   C4_direct_retry_semantics.2.2.2.2.1 _ 0 [1] rfl (by decide),
   C4_direct_retry_semantics.2.2.2.2.2.2.2 _ 1 rfl⟩

/-- C7 counterexample: with the init call answered 200 and chunk 0 answered
401, _send_chunked reports the chunk-upload failure — it neither
re-authenticates nor restarts from init; the same remaining script run from
init would have succeeded, showing the claimed restart does not happen for
a 401 during chunk upload. -/
theorem C7_counterexample :
    send_chunked 1 [⟨200, true⟩, ⟨401, true⟩, ⟨200, true⟩, ⟨200, true⟩, ⟨200, true⟩] =
      .chunkFailed 0 ∧
    send_chunked 1 [⟨200, true⟩, ⟨200, true⟩, ⟨200, true⟩] = .success ∧
    (ChunkedResult.chunkFailed 0 ≠ .success) :=
  ⟨rfl, rfl, by decide⟩

/-- C7 amended: only a 401 at the init step forces a re-authentication and
restarts the chunked flow from init (a failed re-login gives up); a 401
during any chunk upload aborts with that chunk's failure, and a 401 at
finalize is returned as the finalize failure, in both cases with no
re-authentication and no restart. -/
theorem C7_chunked_401_semantics :
    (∀ total rest (step : ChunkedStep), step.code = 401 → step.reloginOk = true →
      send_chunked total (step :: rest) = send_chunked total rest) ∧
    (∀ total rest (step : ChunkedStep), step.code = 401 → step.reloginOk = false →
      send_chunked total (step :: rest) = .initFailed) ∧
    (∀ r sent rest (step : ChunkedStep), step.code = 401 →
      upload_chunks_loop (r + 1) sent (step :: rest) = .chunkFailed sent) ∧
    (∀ rest (step : ChunkedStep), step.code = 401 →
      finalize_call (step :: rest) = .finalizeFailed) := by
  refine ⟨?_, ?_, ?_, ?_⟩
  · intro total rest step hcode hok
    simp [send_chunked, hcode, hok]
  · intro total rest step hcode hok
    simp [send_chunked, hcode, hok]
  · intro r sent rest step hcode
    simp [upload_chunks_loop, hcode]
  · intro rest step hcode
    simp [finalize_call, hcode]

/-- C7 witness: concrete 401s at init, chunk and finalize steps showing the
restart at init and the terminal failures elsewhere. -/
theorem C7_chunked_401_semantics_witness :
    send_chunked 1 [⟨401, true⟩, ⟨200, true⟩, ⟨200, true⟩, ⟨200, true⟩] =
      send_chunked 1 [⟨200, true⟩, ⟨200, true⟩, ⟨200, true⟩] ∧
    send_chunked 1 [⟨401, false⟩] = .initFailed ∧
    upload_chunks_loop 1 0 [⟨401, true⟩] = .chunkFailed 0 ∧
    finalize_call [⟨401, true⟩] = .finalizeFailed :=
  ⟨C7_chunked_401_semantics.1 1 _ _ rfl rfl,
   C7_chunked_401_semantics.2.1 1 _ _ rfl rfl,
   C7_chunked_401_semantics.2.2.1 0 0 _ _ rfl,
   C7_chunked_401_semantics.2.2.2 _ _ rfl⟩

end DockerForensics
